import Mathlib

/-!
Verification of `cli/src/key.rs` (sawtooth-sabre signing-key loading).

A shallow embedding of the key-loading module.  The external world the
code reads from (the `USER` environment variable, the OS current-username
lookup, the home directory, and the filesystem) is modelled by an explicit
`Env` record; the Rust functions become pure Lean functions over `Env`.

The third-party `cylinder` crate (the `PrivateKey::new_from_hex` parser and
the secp256k1 signing context) is not part of this repository's sources, so
the key parser is a parameter of the embedded functions; a concrete parser
modelled from the spec is provided separately for evaluation.
-/

namespace SawtoothKey

/-- Decoded binary key material, a byte sequence
(cylinder's `PrivateKey` wraps a `Vec<u8>`). -/
abbrev PrivateKey := List Nat

/-- The CLI error type as used by `key.rs` (`crate::error::CliError` is not
under the sources; `key.rs` constructs exactly `CliError::UserError(msg)` and
`CliError::SigningError(msg)`, which is all we need to model). -/
inductive CliError where
  | UserError : String → CliError
  | SigningError : String → CliError
deriving DecidableEq, Repr

/-- The external world read by `key.rs`:
* `userVar` — the value of the `USER` environment variable (`env::var("USER")`),
* `osUsername` — the OS current-username lookup (`users::get_current_username()`),
* `homeDir` — the home directory (`dirs::home_dir()`),
* `files` — the filesystem, mapping a path to the contents of the file there
  (`none` when no file exists at that path; a file that exists can be opened
  and read). -/
structure Env where
  userVar : Option String
  osUsername : Option String
  homeDir : Option String
  files : String → Option String

/-! ## `str::lines` — Rust line splitting

`contents.lines().next()` in the source.  Rust's `str::lines` splits at `\n`,
removing a `\r` immediately before a `\n`; a final line ending is optional,
and the empty string yields no lines. -/

/-- Rust `str::lines` on a character list: split at `'\n'` (also consuming a
`'\r'` directly before it); the terminator of the final line is optional;
the empty input has no lines. -/
def splitLines : List Char → List (List Char)
  | [] => []
  | '\n' :: cs => [] :: splitLines cs
  | '\r' :: '\n' :: cs => [] :: splitLines cs
  | c :: cs =>
    match splitLines cs with
    | [] => [[c]]
    | l :: ls => (c :: l) :: ls

/-- Rust `str::lines` as a list of strings. -/
def rustLines (s : String) : List String :=
  (splitLines s.data).map String.mk

/-- Rust `contents.lines().next()`. -/
def linesNext (s : String) : Option String :=
  (rustLines s).head?

/-! ## Path construction

`dirs::home_dir()` returns a `PathBuf` and the code calls `push` three times.
On POSIX, `PathBuf::push(c)` replaces the whole path when `c` is absolute
(begins with `/`); otherwise it appends `c`, inserting a `/` separator unless
the path is empty or already ends with one. -/

/-- Rust `PathBuf::push` (POSIX semantics): a pushed component that is absolute
(its first character is `/`) replaces the whole path; otherwise it is
appended, with a `/` separator unless the path is empty or already ends
with one. -/
def pathPush (p c : String) : String :=
  if c.data.head? = some '/' then c
  else if p.data = [] then c
  else if p.data.getLast? = some '/' then p ++ c
  else p ++ "/" ++ c

/-- The path built from the home directory by
`p.push(".sawtooth"); p.push("keys"); p.push(format!("{}.priv", &username))`. -/
def buildKeyPath (home username : String) : String :=
  pathPush (pathPush (pathPush home ".sawtooth") "keys") (username ++ ".priv")

/-! ## `load_signing_key` -/

/-- Rust `env::var("USER")`: `Ok(value)` when the variable is set, `Err(VarError)`
(modelled as `Except.error ()`) when it is not. -/
def envVarUSER (env : Env) : Except Unit String :=
  match env.userVar with
  | some v => .ok v
  | none => .error ()

/-- The username computation at the top of `load_signing_key`:

```rust
let username: String = name
    .map(String::from)
    .ok_or_else(|| env::var("USER"))
    .or_else(|_| get_current_username().ok_or(0))
    .map_err(|_| CliError::UserError(String::from(
        "Could not load signing key: unable to determine username")))?;
```

`ok_or_else` produces `Result<String, Result<String, VarError>>`, so the
result of `env::var("USER")` becomes the *error payload*; `or_else(|_| …)`
then discards that payload unconditionally and consults the OS lookup. -/
def load_username (name : Option String) (env : Env) : Except CliError String :=
  let step1 : Except (Except Unit String) String :=
    match name with
    | some n => .ok n
    | none => .error (envVarUSER env)
  let step2 : Except Nat String :=
    match step1 with
    | .ok n => .ok n
    | .error _ =>
      match env.osUsername with
      | some u => .ok u
      | none => .error 0
  match step2 with
  | .ok u => .ok u
  | .error _ =>
    .error (.UserError "Could not load signing key: unable to determine username")

/-- The `private_key_filename` computation of `load_signing_key`:
`dirs::home_dir()` with the three `push` calls, or the
home-directory error. -/
def resolve_key_path (env : Env) (username : String) : Except CliError String :=
  match env.homeDir with
  | none =>
    .error (.UserError "Could not load signing key: unable to determine home directory")
  | some h => .ok (buildKeyPath h username)

/-- Function `load_signing_key` from `cli/src/key.rs`, parameterised by the external
key parser `newFromHex` (cylinder's `PrivateKey::new_from_hex`):
resolve the username, build the key-file path, check existence, read the
file, take the first line, and parse it. -/
def load_signing_key (newFromHex : String → Except String PrivateKey)
    (name : Option String) (env : Env) : Except CliError PrivateKey :=
  match load_username name env with
  | .error e => .error e
  | .ok username =>
  match resolve_key_path env username with
  | .error e => .error e
  | .ok private_key_filename =>
  match env.files private_key_filename with
  | none =>
    .error (.UserError ("No such key file: " ++ private_key_filename))
  | some contents =>
    match linesNext contents with
    | none =>
      .error (.UserError ("Empty key file: " ++ private_key_filename))
    | some key_str =>
      match newFromHex key_str with
      | .ok k => .ok k
      | .error err =>
        .error (.SigningError
          ("Unable to parse private key file " ++ private_key_filename
            ++ ": " ++ err ++ " "))

/-! ## `new_signer` -/

/-- The fixed elliptic-curve algorithm of the signing context. -/
inductive ContextAlg where
  | secp256k1
deriving DecidableEq, Repr

/-- A signer: a signing context together with the private key bound to it
(`context.new_signer(private_key)`). -/
structure Signer where
  context : ContextAlg
  key : PrivateKey
deriving DecidableEq, Repr

/-- Function `new_signer` from `cli/src/key.rs`:

```rust
pub fn new_signer(key_name: Option<&str>) -> Result<Box<dyn Signer>, CliError> {
    let context = Secp256k1Context::new();
    let private_key = load_signing_key(key_name)?;
    Ok(context.new_signer(private_key))
}
``` -/
def new_signer (newFromHex : String → Except String PrivateKey)
    (key_name : Option String) (env : Env) : Except CliError Signer :=
  let context := ContextAlg.secp256k1
  match load_signing_key newFromHex key_name env with
  | .error e => .error e
  | .ok private_key => .ok { context := context, key := private_key }

/-! ## A concrete key parser, modelled from the spec

`PrivateKey::new_from_hex` lives in the third-party `cylinder` crate, outside
this repository's sources, so its exact behaviour cannot be read off the
code.  The spec says parsing fails "if the first line is not valid hex or
not a valid key for the target curve" (secp256k1). -/

/-- Value of a single hexadecimal digit, `none` for a non-hex character. -/
def hexDigitVal (c : Char) : Option Nat :=
  if '0' ≤ c ∧ c ≤ '9' then some (c.toNat - '0'.toNat)
  else if 'a' ≤ c ∧ c ≤ 'f' then some (c.toNat - 'a'.toNat + 10)
  else if 'A' ≤ c ∧ c ≤ 'F' then some (c.toNat - 'A'.toNat + 10)
  else none

/-- Hex-decode a character list two digits at a time; fails on a non-hex
character or an odd number of digits. -/
def hexDecodeList : List Char → Option (List Nat)
  | [] => some []
  | [_] => none
  | c1 :: c2 :: rest => do
    let hi ← hexDigitVal c1
    let lo ← hexDigitVal c2
    let bs ← hexDecodeList rest
    pure ((16 * hi + lo) :: bs)

/-- The big-endian integer denoted by a byte sequence. -/
def bytesToNat : List Nat → Nat
  | [] => 0
  | b :: bs => b * 256 ^ bs.length + bytesToNat bs

/-- The order of the secp256k1 group. -/
def secp256k1Order : Nat :=
  0xFFFFFFFFFFFFFFFFFFFFFFFFFFFFFFFEBAAEDCE6AF48A03BBFD25E8CD0364141

/-- A valid secp256k1 private key: 32 bytes encoding an integer `k` with
`0 < k < n` for the group order `n`. -/
def validSecp256k1Key (bs : List Nat) : Bool :=
  bs.length = 32 && 0 < bytesToNat bs && bytesToNat bs < secp256k1Order

/-- Modelled from the spec: cylinder's `PrivateKey::new_from_hex` is not
under this repository's sources; per the spec, key parsing fails "if the
first line is not valid hex or not a valid key for the target curve", so
the string is hex-decoded and the result checked for secp256k1 validity. -/
def new_from_hex (s : String) : Except String PrivateKey :=
  match hexDecodeList s.data with
  | none => .error ("invalid hex: " ++ s)
  | some bs =>
    if validSecp256k1Key bs then .ok bs
    else .error ("not a valid secp256k1 key: " ++ s)

/-! ## The spec's decomposition and auxiliary definitions -/

/-- The spec's `load_private_key(path)` operation: the part of
`load_signing_key` after `private_key_filename` is built — existence check,
file read, first line, key parse. -/
def load_private_key (newFromHex : String → Except String PrivateKey)
    (env : Env) (path : String) : Except CliError PrivateKey :=
  match env.files path with
  | none => .error (.UserError ("No such key file: " ++ path))
  | some contents =>
    match linesNext contents with
    | none => .error (.UserError ("Empty key file: " ++ path))
    | some key_str =>
      match newFromHex key_str with
      | .ok k => .ok k
      | .error err =>
        .error (.SigningError
          ("Unable to parse private key file " ++ path ++ ": " ++ err ++ " "))

/-- The key-file path that `load_signing_key` will consult, when both the
username and the home directory resolve. -/
def resolvedPath (name : Option String) (env : Env) : Option String :=
  match load_username name env, env.homeDir with
  | .ok u, some h => some (buildKeyPath h u)
  | _, _ => none

/-- An environment for concrete evaluation: no `USER`, no OS username, home
directory `/home/u`, and a given filesystem. -/
def testEnv (files : String → Option String) : Env :=
  { userVar := none, osUsername := none, homeDir := some "/home/u", files := files }

/-- A filesystem holding a single file. -/
def oneFile (path contents : String) : String → Option String :=
  fun p => if p = path then some contents else none

/-- A hex encoding of a valid secp256k1 private key (the integer 1). -/
def sampleKeyHex : String :=
  "0000000000000000000000000000000000000000000000000000000000000001"

/-- The byte sequence `sampleKeyHex` decodes to. -/
def sampleKeyBytes : PrivateKey := List.replicate 31 0 ++ [1]

/-! ## General lemmas -/

theorem string_eq_empty_iff (s : String) : s = "" ↔ s.data = [] :=
  ⟨fun h => h ▸ rfl, fun h => String.ext h⟩

theorem splitLines_ne_nil (cs : List Char) (h : cs ≠ []) : splitLines cs ≠ [] := by
  rw [splitLines.eq_def]
  split
  · exact absurd rfl h
  · exact List.cons_ne_nil _ _
  · exact List.cons_ne_nil _ _
  · split <;> exact List.cons_ne_nil _ _

theorem linesNext_eq_none_iff (s : String) : linesNext s = none ↔ s = "" := by
  rw [string_eq_empty_iff]
  unfold linesNext rustLines
  constructor
  · intro hn
    by_contra hd
    cases hs : splitLines s.data with
    | nil => exact splitLines_ne_nil s.data hd hs
    | cons l ls => rw [hs] at hn; simp at hn
  · intro h
    rw [h]
    rfl

/-- If a string is non-empty, Rust's `lines().next()` yields its first line. -/
theorem linesNext_of_ne_empty (s : String) (h : s ≠ "") :
    ∃ l, linesNext s = some l ∧ l ∈ rustLines s := by
  have hd : s.data ≠ [] := fun hc => h (String.ext hc)
  unfold linesNext rustLines
  cases hs : splitLines s.data with
  | nil => exact absurd hs (splitLines_ne_nil s.data hd)
  | cons l ls =>
    refine ⟨String.mk l, ?_, ?_⟩
    · rfl
    · exact List.mem_cons_self _ _

/-- Splitting a string whose first segment `l` contains no `'\n'` and does
not end in `'\r'`, followed by a `'\n'` terminator: the first line is `l`. -/
theorem splitLines_append (l rest : List Char)
    (hn : ∀ c ∈ l, c ≠ '\n') (hr : l.getLast? ≠ some '\r') :
    splitLines (l ++ '\n' :: rest) = l :: splitLines rest := by
  induction l with
  | nil => rw [List.nil_append, splitLines.eq_2]
  | cons a l ih =>
    have ha : a ≠ '\n' := hn a (List.mem_cons_self _ _)
    rw [List.cons_append, splitLines.eq_4 a _ (fun h => ha h) ?h2]
    case h2 =>
      intro cs1 har hcs
      cases l with
      | nil => exact hr (by simp [har])
      | cons b l' =>
        have hb : b ≠ '\n' := hn b (List.mem_cons_of_mem _ (List.mem_cons_self _ _))
        rw [List.cons_append] at hcs
        exact hb (List.head_eq_of_cons_eq hcs)
    have hn' : ∀ c ∈ l, c ≠ '\n' := fun c hc => hn c (List.mem_cons_of_mem a hc)
    have hr' : l.getLast? ≠ some '\r' := by
      cases l with
      | nil => simp
      | cons b l' => rw [← List.getLast?_cons_cons]; exact hr
    rw [ih hn' hr']

theorem pathPush_of_relative (p c : String) (hc : c.data.head? ≠ some '/')
    (hp : p.data ≠ []) (hpl : p.data.getLast? ≠ some '/') :
    pathPush p c = p ++ "/" ++ c := by
  unfold pathPush
  rw [if_neg hc, if_neg hp, if_neg hpl]

/-- For a home directory that is a nonempty path without trailing separator
and an identity that is not absolute, the constructed key path is the
template `{home}/.sawtooth/keys/{identity}.priv`. -/
theorem buildKeyPath_of_relative (home n : String) (hn : n.data.head? ≠ some '/')
    (hh : home.data ≠ []) (hl : home.data.getLast? ≠ some '/') :
    buildKeyPath home n = home ++ "/.sawtooth/keys/" ++ n ++ ".priv" := by
  have l1 : (home ++ "/" ++ ".sawtooth").data.getLast? = some 'h' := by
    rw [String.data_append, List.getLast?_append]
    rfl
  have n1 : (home ++ "/" ++ ".sawtooth").data ≠ [] := by
    intro he
    rw [he] at l1
    exact Option.noConfusion l1
  have l2 : ((home ++ "/" ++ ".sawtooth") ++ "/" ++ "keys").data.getLast? = some 's' := by
    rw [String.data_append, List.getLast?_append]
    rfl
  have n2 : ((home ++ "/" ++ ".sawtooth") ++ "/" ++ "keys").data ≠ [] := by
    intro he
    rw [he] at l2
    exact Option.noConfusion l2
  have hc3 : (n ++ ".priv").data.head? ≠ some '/' := by
    rw [String.data_append, List.head?_append]
    cases hnd : n.data with
    | nil => decide
    | cons c cs =>
      rw [hnd] at hn
      simpa using hn
  unfold buildKeyPath
  rw [pathPush_of_relative home ".sawtooth" (by decide) hh hl]
  rw [pathPush_of_relative _ "keys" (by decide) n1 (by rw [l1]; decide)]
  rw [pathPush_of_relative _ (n ++ ".priv") hc3 n2 (by rw [l2]; decide)]
  apply String.ext
  simp only [String.data_append, List.append_assoc]
  simp

/-- Once the username and home directory resolve, `load_signing_key` is
decided by the file at the constructed path. -/
theorem load_signing_key_resolved (nfh : String → Except String PrivateKey)
    (name : Option String) (env : Env) (u h : String)
    (hu : load_username name env = .ok u) (hh : env.homeDir = some h) :
    load_signing_key nfh name env
      = load_private_key nfh env (buildKeyPath h u) := by
  unfold load_signing_key load_private_key resolve_key_path
  simp only [hu, hh]

theorem load_signing_key_username_error (nfh : String → Except String PrivateKey)
    (name : Option String) (env : Env) (e : CliError)
    (hu : load_username name env = .error e) :
    load_signing_key nfh name env = .error e := by
  unfold load_signing_key
  rw [hu]

theorem load_signing_key_home_error (nfh : String → Except String PrivateKey)
    (name : Option String) (env : Env) (u : String)
    (hu : load_username name env = .ok u) (hh : env.homeDir = none) :
    load_signing_key nfh name env
      = .error
          (.UserError "Could not load signing key: unable to determine home directory") := by
  unfold load_signing_key resolve_key_path
  simp only [hu, hh]

/-! ## Claims -/

/-- Claim C1, evaluation of the code at the failing input: with no explicit
name, `USER` set to `"alice"`, and the OS username lookup unavailable,
identity resolution fails even though `USER` is set; and with the OS lookup
returning `"bob"`, resolution yields `"bob"`, not `"alice"`.  The claim
says the identity is taken from `USER` when it is set and the OS lookup is
consulted only when `USER` is unset; in the code `ok_or_else` puts the
result of `env::var("USER")` into the error payload and `or_else(|_| …)`
discards that payload, so `USER` never decides the identity. -/
theorem C1_user_var_never_consulted :
    load_username none
        { userVar := some "alice", osUsername := none,
          homeDir := some "/home/alice", files := fun _ => none }
      = .error (.UserError "Could not load signing key: unable to determine username")
    ∧ load_username none
        { userVar := some "alice", osUsername := some "bob",
          homeDir := some "/home/alice", files := fun _ => none }
      = .ok "bob" :=
  ⟨rfl, rfl⟩

/-- Claim C3, counterexample: the identity `"/tmp/evil"` resolves, but the
constructed key-file path is `"/tmp/evil.priv"` — the absolute final
component replaces the whole `PathBuf` — which is not the template
`{home}/.sawtooth/keys/{identity}.priv`. -/
theorem C3_counterexample :
    load_username (some "/tmp/evil")
        { userVar := none, osUsername := none, homeDir := some "/home/u",
          files := fun _ => none }
      = .ok "/tmp/evil"
    ∧ resolve_key_path
        { userVar := none, osUsername := none, homeDir := some "/home/u",
          files := fun _ => none }
        "/tmp/evil"
      = .ok "/tmp/evil.priv"
    ∧ "/tmp/evil.priv" ≠ "/home/u" ++ "/.sawtooth/keys/" ++ "/tmp/evil" ++ ".priv" :=
  ⟨rfl, rfl, by decide⟩

/-- Claim C3, amended: for a resolved identity that does not begin with `/`
(and a home directory that is a nonempty path without trailing separator),
the key-file path is `{home}/.sawtooth/keys/{identity}.priv`; an identity
beginning with `/` makes the final `push` absolute, replacing the whole
path.  If the home directory cannot be determined, path construction fails
with the home-directory error, and the result does not depend on the
filesystem at all (no filesystem access). -/
theorem C3_key_path_construction (name : Option String) (env : Env) (u : String)
    (hu : load_username name env = .ok u) :
    (∀ h : String, env.homeDir = some h →
        u.data.head? ≠ some '/' → h.data ≠ [] → h.data.getLast? ≠ some '/' →
        resolve_key_path env u = .ok (h ++ "/.sawtooth/keys/" ++ u ++ ".priv"))
    ∧ (env.homeDir = none →
        resolve_key_path env u
          = .error
              (.UserError "Could not load signing key: unable to determine home directory")
        ∧ ∀ (nfh : String → Except String PrivateKey) (files' : String → Option String),
            load_signing_key nfh name { env with files := files' }
              = load_signing_key nfh name env) := by
  constructor
  · intro h hh hn hd hl
    simp only [resolve_key_path, hh]
    rw [buildKeyPath_of_relative h u hn hd hl]
  · intro hh
    constructor
    · unfold resolve_key_path
      rw [hh]
    · intro nfh files'
      have hu' : load_username name { env with files := files' } = .ok u := hu
      rw [load_signing_key_home_error nfh name { env with files := files' } u hu' hh,
        load_signing_key_home_error nfh name env u hu hh]

/-- Witness for C3: concrete identity `"alice"`, home `/home/u`. -/
theorem C3_key_path_construction_witness :
    resolve_key_path (testEnv (fun _ => none)) "alice"
      = .ok ("/home/u" ++ "/.sawtooth/keys/" ++ "alice" ++ ".priv") :=
  (C3_key_path_construction (some "alice") (testEnv (fun _ => none)) "alice" rfl).1
    "/home/u" rfl (by decide) (by decide) (by decide)

/-- Claim C4: when the username and home directory resolve but no file exists
at the constructed path, `load_signing_key` fails with the key-file-not-found
error whose message names the exact path that was checked — for every key
parser. -/
theorem C4_missing_key_file (nfh : String → Except String PrivateKey)
    (name : Option String) (env : Env) (u h : String)
    (hu : load_username name env = .ok u) (hh : env.homeDir = some h)
    (hf : env.files (buildKeyPath h u) = none) :
    load_signing_key nfh name env
      = .error (.UserError ("No such key file: " ++ buildKeyPath h u)) := by
  rw [load_signing_key_resolved nfh name env u h hu hh]
  unfold load_private_key
  rw [hf]

/-- Witness for C4. -/
theorem C4_missing_key_file_witness :
    load_signing_key new_from_hex (some "alice") (testEnv (fun _ => none))
      = .error (.UserError ("No such key file: " ++ buildKeyPath "/home/u" "alice")) :=
  C4_missing_key_file new_from_hex (some "alice") (testEnv (fun _ => none))
    "alice" "/home/u" rfl rfl rfl

/-- Claim C5: a key file that exists with empty contents (no lines) makes
`load_signing_key` fail with the empty-key-file error; the conclusion holds
for every key parser, so no key parse is ever attempted. -/
theorem C5_empty_key_file (nfh : String → Except String PrivateKey)
    (name : Option String) (env : Env) (u h : String)
    (hu : load_username name env = .ok u) (hh : env.homeDir = some h)
    (hf : env.files (buildKeyPath h u) = some "") :
    load_signing_key nfh name env
      = .error (.UserError ("Empty key file: " ++ buildKeyPath h u)) := by
  rw [load_signing_key_resolved nfh name env u h hu hh]
  unfold load_private_key
  rw [hf]
  rfl

/-- Witness for C5. -/
theorem C5_empty_key_file_witness :
    load_signing_key new_from_hex (some "alice")
        (testEnv (oneFile (buildKeyPath "/home/u" "alice") ""))
      = .error (.UserError ("Empty key file: " ++ buildKeyPath "/home/u" "alice")) :=
  C5_empty_key_file new_from_hex (some "alice")
    (testEnv (oneFile (buildKeyPath "/home/u" "alice") ""))
    "alice" "/home/u" rfl rfl (by simp [testEnv, oneFile])

/-- Claim C6: when the existing key file's first line is rejected by the key
parser, `load_signing_key` fails with a key-parse error whose message wraps
the underlying decode error — for every key parser, in particular for the
spec-modelled one rejecting non-hex input and invalid secp256k1 keys. -/
theorem C6_key_parse_error (nfh : String → Except String PrivateKey)
    (name : Option String) (env : Env) (u h c l e : String)
    (hu : load_username name env = .ok u) (hh : env.homeDir = some h)
    (hf : env.files (buildKeyPath h u) = some c)
    (hl : linesNext c = some l) (he : nfh l = .error e) :
    load_signing_key nfh name env
      = .error (.SigningError
          ("Unable to parse private key file " ++ buildKeyPath h u ++ ": " ++ e ++ " ")) := by
  rw [load_signing_key_resolved nfh name env u h hu hh]
  unfold load_private_key
  simp only [hf, hl, he]

/-- Witness for C6: a file whose first line `"zz"` is not valid hex. -/
theorem C6_key_parse_error_witness :
    load_signing_key new_from_hex (some "alice")
        (testEnv (oneFile (buildKeyPath "/home/u" "alice") "zz"))
      = .error (.SigningError
          ("Unable to parse private key file " ++ buildKeyPath "/home/u" "alice"
            ++ ": " ++ "invalid hex: zz" ++ " ")) :=
  C6_key_parse_error new_from_hex (some "alice")
    (testEnv (oneFile (buildKeyPath "/home/u" "alice") "zz"))
    "alice" "/home/u" "zz" "zz" "invalid hex: zz"
    rfl rfl (by simp [testEnv, oneFile]) (by decide) rfl

/-- Claim C7: when the key file's contents are a first line `l` (no embedded
newline, no trailing carriage return) followed by a newline and arbitrary
further contents `rest`, and the parser accepts `l`, loading succeeds with
exactly the key parsed from `l`: the conclusion does not depend on `rest`,
so every trailing line is ignored. -/
theorem C7_first_line_only (nfh : String → Except String PrivateKey)
    (name : Option String) (env : Env) (u h : String) (l rest : String)
    (k : PrivateKey)
    (hu : load_username name env = .ok u) (hh : env.homeDir = some h)
    (hf : env.files (buildKeyPath h u) = some (l ++ "\n" ++ rest))
    (hnl : ∀ ch ∈ l.data, ch ≠ '\n') (hcr : l.data.getLast? ≠ some '\r')
    (hk : nfh l = .ok k) :
    load_signing_key nfh name env = .ok k := by
  have hline : linesNext (l ++ "\n" ++ rest) = some l := by
    unfold linesNext rustLines
    have hd : (l ++ "\n" ++ rest).data = l.data ++ '\n' :: rest.data := by
      rw [String.data_append, String.data_append, List.append_assoc]
      rfl
    rw [hd, splitLines_append l.data rest.data hnl hcr]
    rfl
  rw [load_signing_key_resolved nfh name env u h hu hh]
  unfold load_private_key
  simp only [hf, hline, hk]

/-- Witness for C7: a valid key on line one, garbage on later lines. -/
theorem C7_first_line_only_witness :
    load_signing_key new_from_hex (some "alice")
        (testEnv (oneFile (buildKeyPath "/home/u" "alice")
          (sampleKeyHex ++ "\n" ++ "garbage\nmore garbage")))
      = .ok sampleKeyBytes :=
  C7_first_line_only new_from_hex (some "alice")
    (testEnv (oneFile (buildKeyPath "/home/u" "alice")
      (sampleKeyHex ++ "\n" ++ "garbage\nmore garbage")))
    "alice" "/home/u" sampleKeyHex "garbage\nmore garbage" sampleKeyBytes
    rfl rfl (by simp [testEnv, oneFile]) (by decide) (by decide) rfl

/-- Claim C9: with an existing key file, the empty-key-file error is raised
iff the file's contents are the empty string; when the contents are
non-empty but the first line is empty, the empty string is handed to the
key parser and the parser's verdict alone decides the outcome. -/
theorem C9_empty_error_iff_empty_contents (nfh : String → Except String PrivateKey)
    (name : Option String) (env : Env) (u h c : String)
    (hu : load_username name env = .ok u) (hh : env.homeDir = some h)
    (hf : env.files (buildKeyPath h u) = some c) :
    (load_signing_key nfh name env
        = .error (.UserError ("Empty key file: " ++ buildKeyPath h u)) ↔ c = "")
    ∧ (linesNext c = some "" →
        load_signing_key nfh name env
          = match nfh "" with
            | .ok k => .ok k
            | .error err =>
              .error (.SigningError
                ("Unable to parse private key file " ++ buildKeyPath h u
                  ++ ": " ++ err ++ " "))) := by
  rw [load_signing_key_resolved nfh name env u h hu hh]
  unfold load_private_key
  simp only [hf]
  constructor
  · constructor
    · intro hres
      by_contra hc
      obtain ⟨l, hl, -⟩ := linesNext_of_ne_empty c hc
      rw [hl] at hres
      revert hres
      cases hk : nfh l with
      | ok k => simp [hk]
      | error e => simp [hk]
    · intro hc
      subst hc
      rfl
  · intro hl
    rw [hl]

/-- Witness for C9: a file beginning with a newline is not reported as
empty. -/
theorem C9_empty_error_iff_empty_contents_witness :
    ¬ (load_signing_key new_from_hex (some "alice")
          (testEnv (oneFile (buildKeyPath "/home/u" "alice") "\ngarbage"))
        = .error (.UserError ("Empty key file: " ++ buildKeyPath "/home/u" "alice"))) :=
  fun hres =>
    absurd
      ((C9_empty_error_iff_empty_contents new_from_hex (some "alice")
          (testEnv (oneFile (buildKeyPath "/home/u" "alice") "\ngarbage"))
          "alice" "/home/u" "\ngarbage"
          rfl rfl (by simp [testEnv, oneFile])).1.mp hres)
      (by decide)

/-- Claim C2: with the spec-modelled key parser (which rejects the empty
string: it is not a valid secp256k1 key), a resolved key file none of whose
lines is non-empty makes `new_signer` fail — no `Signer` value is produced. -/
theorem C2_no_nonempty_line_no_signer (name : Option String) (env : Env)
    (u h c : String)
    (hu : load_username name env = .ok u) (hh : env.homeDir = some h)
    (hf : env.files (buildKeyPath h u) = some c)
    (hall : ∀ l ∈ rustLines c, l = "") :
    ∃ e, new_signer new_from_hex name env = .error e := by
  have hload : ∃ e, load_signing_key new_from_hex name env = .error e := by
    rw [load_signing_key_resolved new_from_hex name env u h hu hh]
    unfold load_private_key
    simp only [hf]
    rcases eq_or_ne c "" with hc | hc
    · subst hc
      exact ⟨_, rfl⟩
    · obtain ⟨l, hl, hmem⟩ := linesNext_of_ne_empty c hc
      have hl0 : l = "" := hall l hmem
      subst hl0
      rw [hl]
      exact ⟨_, rfl⟩
  obtain ⟨e, he⟩ := hload
  refine ⟨e, ?_⟩
  unfold new_signer
  rw [he]

/-- Witness for C2: a key file containing only two newlines. -/
theorem C2_no_nonempty_line_no_signer_witness :
    ∃ e, new_signer new_from_hex (some "alice")
        (testEnv (oneFile (buildKeyPath "/home/u" "alice") "\n\n"))
      = .error e :=
  C2_no_nonempty_line_no_signer (some "alice")
    (testEnv (oneFile (buildKeyPath "/home/u" "alice") "\n\n"))
    "alice" "/home/u" "\n\n"
    rfl rfl (by simp [testEnv, oneFile]) (by decide)

/-- Claim C8: `new_signer` is the composition of identity resolution, path
construction and key loading, after which the parsed private key is bound
to a fixed secp256k1 signing context; and the only part of the filesystem
it consults is the file at the resolved key path (the embedding is a pure
function of the environment, so no environment, filesystem, or other state
is modified on success or on error). -/
theorem C8_new_signer_composition (nfh : String → Except String PrivateKey)
    (key_name : Option String) (env : Env) :
    (new_signer nfh key_name env
      = match (load_username key_name env).bind fun u =>
          (resolve_key_path env u).bind fun p => load_private_key nfh env p with
        | .error e => .error e
        | .ok k => .ok { context := ContextAlg.secp256k1, key := k })
    ∧ (∀ s, new_signer nfh key_name env = .ok s → s.context = ContextAlg.secp256k1)
    ∧ (∀ files' : String → Option String,
        (∀ p, resolvedPath key_name env = some p → files' p = env.files p) →
        new_signer nfh key_name { env with files := files' }
          = new_signer nfh key_name env) := by
  refine ⟨?_, ?_, ?_⟩
  · cases hu : load_username key_name env with
    | error e =>
      simp only [new_signer,
        load_signing_key_username_error nfh key_name env e hu, hu, Except.bind]
    | ok u =>
      cases hh : env.homeDir with
      | none =>
        have hr : resolve_key_path env u
            = .error (.UserError
                "Could not load signing key: unable to determine home directory") := by
          unfold resolve_key_path
          rw [hh]
        simp only [new_signer,
          load_signing_key_home_error nfh key_name env u hu hh, hu, hr, Except.bind]
      | some h =>
        have hr : resolve_key_path env u = .ok (buildKeyPath h u) := by
          unfold resolve_key_path
          rw [hh]
        simp only [new_signer,
          load_signing_key_resolved nfh key_name env u h hu hh, hu, hr, Except.bind]
  · intro s hs
    simp only [new_signer] at hs
    revert hs
    cases load_signing_key nfh key_name env with
    | error e => intro hs; exact Except.noConfusion hs
    | ok k =>
      intro hs
      cases Except.ok.inj hs
      rfl
  · intro files' hfp
    have hload : load_signing_key nfh key_name { env with files := files' }
        = load_signing_key nfh key_name env := by
      cases hu : load_username key_name env with
      | error e =>
        rw [load_signing_key_username_error nfh key_name { env with files := files' } e hu,
          load_signing_key_username_error nfh key_name env e hu]
      | ok u =>
        have hcase : env.homeDir = none ∨ ∃ h, env.homeDir = some h := by
          cases env.homeDir with
          | none => exact Or.inl rfl
          | some h => exact Or.inr ⟨h, rfl⟩
        rcases hcase with hh | ⟨h, hh⟩
        · rw [load_signing_key_home_error nfh key_name { env with files := files' } u hu hh,
            load_signing_key_home_error nfh key_name env u hu hh]
        · rw [load_signing_key_resolved nfh key_name { env with files := files' } u h hu hh,
            load_signing_key_resolved nfh key_name env u h hu hh]
          have hp : resolvedPath key_name env = some (buildKeyPath h u) := by
            unfold resolvedPath
            rw [hu, hh]
          have hfe : Env.files { env with files := files' } (buildKeyPath h u)
              = env.files (buildKeyPath h u) := hfp _ hp
          unfold load_private_key
          rw [hfe]
    unfold new_signer
    rw [hload]

/-- Witness for C8: a concrete environment with a valid key file; the
signer produced carries the secp256k1 context. -/
theorem C8_new_signer_composition_witness :
    new_signer new_from_hex (some "alice")
        (testEnv (oneFile (buildKeyPath "/home/u" "alice") sampleKeyHex))
      = .ok { context := ContextAlg.secp256k1, key := sampleKeyBytes }
    ∧ Signer.context { context := ContextAlg.secp256k1, key := sampleKeyBytes }
      = ContextAlg.secp256k1 := by
  have hok : new_signer new_from_hex (some "alice")
      (testEnv (oneFile (buildKeyPath "/home/u" "alice") sampleKeyHex))
      = .ok { context := ContextAlg.secp256k1, key := sampleKeyBytes } := rfl
  exact ⟨hok,
    (C8_new_signer_composition new_from_hex (some "alice")
      (testEnv (oneFile (buildKeyPath "/home/u" "alice") sampleKeyHex))).2.1 _ hok⟩

/-- Claim C10: an explicitly supplied name resolves to itself for every
environment (neither `USER` nor the OS lookup can influence the result),
and is interpolated verbatim and unsanitized into the filename
`{name}.priv`: a relative name (even empty, or containing `/` or `..`)
lands under `{home}/.sawtooth/keys/`, a name with `..` escapes that
directory after normalisation, and an absolute name replaces the whole
path, landing outside the keys directory altogether. -/
theorem C10_explicit_name_unsanitized :
    (∀ (n : String) (env : Env), load_username (some n) env = .ok n)
    ∧ (∀ (n home : String), n.data.head? ≠ some '/' →
        home.data ≠ [] → home.data.getLast? ≠ some '/' →
        buildKeyPath home n = home ++ "/.sawtooth/keys/" ++ n ++ ".priv")
    ∧ buildKeyPath "/home/u" "../../etc/passwd"
        = "/home/u/.sawtooth/keys/../../etc/passwd.priv"
    ∧ buildKeyPath "/home/u" "/tmp/evil" = "/tmp/evil.priv"
    ∧ (∀ rest : String,
        buildKeyPath "/home/u" "/tmp/evil" ≠ "/home/u/.sawtooth/keys/" ++ rest) := by
  refine ⟨fun n env => rfl,
    fun n home hn hh hl => buildKeyPath_of_relative home n hn hh hl, rfl, rfl, ?_⟩
  intro rest hEq
  have hEq' : "/tmp/evil.priv" = "/home/u/.sawtooth/keys/" ++ rest := hEq
  have h2 := congrArg (fun s : String => s.data[1]?) hEq'
  have h3 : (some 't' : Option Char) = some 'h' := h2
  exact absurd h3 (by decide)

/-- Witness for C10: the name `"a/b"`, containing a path separator, is used
verbatim. -/
theorem C10_explicit_name_unsanitized_witness :
    load_username (some "a/b") (testEnv (fun _ => none)) = .ok "a/b"
    ∧ buildKeyPath "/h" "a/b" = "/h" ++ "/.sawtooth/keys/" ++ "a/b" ++ ".priv" :=
  ⟨C10_explicit_name_unsanitized.1 "a/b" (testEnv (fun _ => none)),
    C10_explicit_name_unsanitized.2.1 "a/b" "/h" (by decide) (by decide) (by decide)⟩

end SawtoothKey

